import Mathlib

/-!
Verification of the TimeIt header-only scope-timer library (src/time_it.h).

The library is embedded shallowly: the C global configuration variables, the
thread-local depth counter, and the observable effects (stream writes, fclose
calls, emission events) are collected in an explicit state record that every
modelled function threads through.  Machine integers (`long`, `int`) are
modelled as `Int`; C strings as `String`; `FILE *` handles as an abstract
`Sink` type, with `Option Sink` standing for a possibly-NULL pointer.
-/

namespace TimeIt

/-- An abstract writable stream handle (`FILE *` that is known non-NULL):
either the process standard-error stream or an opened file. -/
inductive Sink where
  | stderr : Sink
  | file : Nat → Sink
deriving DecidableEq, Repr

/-- `struct timespec`: whole seconds and sub-second nanoseconds. -/
structure Timespec where
  tv_sec : Int
  tv_nsec : Int
deriving DecidableEq, Repr

/-- Total nanosecond value of a timespec instant. -/
def Timespec.toNanos (ts : Timespec) : Int :=
  ts.tv_sec * 1000000000 + ts.tv_nsec

/-- `struct log_timer` from src/time_it.h: name, category, start instant and
the nesting depth snapshotted at construction. -/
structure log_timer where
  name : String
  category : String
  start : Timespec
  depth : Int
deriving DecidableEq, Repr

/-- Decimal digit characters used to model the `%d` / `%.3f` renderings of
`fprintf`.  Arguments are always in `0..9` at use sites. -/
def digitChar : Nat → Char
  | 0 => '0'
  | 1 => '1'
  | 2 => '2'
  | 3 => '3'
  | 4 => '4'
  | 5 => '5'
  | 6 => '6'
  | 7 => '7'
  | 8 => '8'
  | 9 => '9'
  | _ => '*'

/-- Fuel-indexed decimal rendering of a natural number (most significant digit
first); the fuel is an upper bound making the recursion structural. -/
def natDecCharsAux : Nat → Nat → List Char
  | 0, _ => []
  | fuel + 1, n =>
    if n < 10 then [digitChar n]
    else natDecCharsAux fuel (n / 10) ++ [digitChar (n % 10)]

/-- Decimal rendering of a natural number, as printed by `%d`. -/
def natDecStr (n : Nat) : String :=
  String.mk (natDecCharsAux (n + 1) n)

/-- Decimal rendering of an integer, as printed by `%d`. -/
def intDecStr : Int → String
  | Int.ofNat n => natDecStr n
  | Int.negSucc n => String.mk ('-' :: natDecCharsAux (n + 2) (n + 1))

/-- Exactly three decimal digits, zero padded, for a value below 1000: the
fractional part of a `%.3f` rendering. -/
def pad3 (m : Nat) : String :=
  String.mk [digitChar (m / 100 % 10), digitChar (m / 10 % 10), digitChar (m % 10)]

/-- Exact-real idealization of the `exp3` computed by `print_scientific` for
a positive integer input: the C code computes
`((int)floor(log10(value)/3.0))*3` where `value = (double)elapsed_ns`, and
for a positive integer treated in exact real arithmetic
`floor(log10 value) = Nat.log 10 value` and `floor (x/3) = floor x / 3`.
The program, however, computes this in double precision: the
`long` → `double` conversion is lossy above 2^53 (at `10^18 - 1` it rounds up
to `10^18`, moving the exponent from 15 to 18) and libm's `log10` carries an
unspecified rounding error near power-of-ten boundaries.  This definition is
therefore NOT offered as a faithful model of the program's numeric output;
it only supplies a concrete executable string for the positive branch of
`print_scientific`, which the emission theorems below treat as an opaque
token. -/
def sciExp (n : Nat) : Nat :=
  3 * (Nat.log 10 n / 3)

/-- Exact-real idealization of the mantissa printed by `%.3f`, scaled by
1000: the scaled value `n / 10 ^ sciExp n` rounded to the nearest
thousandth, ties up.  The program computes the division in double precision
and `printf` rounds ties to even, so on tie inputs (e.g. a scaled value of
exactly 1.0625) the program's digits differ from this idealization.  As with
`sciExp`, it exists only to make the positive branch of `print_scientific`
executable; no theorem below relies on its numeric fidelity. -/
def sciMant1000 (n : Nat) : Nat :=
  (2000 * n + 10 ^ sciExp n) / (2 * 10 ^ sciExp n)

/-- The string produced by the general (`log10`) path of `print_scientific`
on a positive input — `"%.3fe%d"` of the scaled mantissa and `exp3` — under
the exact-real idealization of `sciExp`/`sciMant1000`.  The emission
theorems below never inspect this string; they pass it through unchanged. -/
def sciRenderPos (n : Nat) : String :=
  natDecStr (sciMant1000 n / 1000) ++ "." ++ pad3 (sciMant1000 n % 1000)
    ++ "e" ++ natDecStr (sciExp n)

/-- Branch taken by `print_scientific`: the source tests `value == 0` (which,
for `value = (double)elapsed_ns`, holds exactly when `elapsed_ns == 0`) and
otherwise unconditionally runs the `log10`/`pow` path; there is no other
branch in the function. -/
inductive SciBranch where
  | zeroLiteral : SciBranch
  | log10Path : SciBranch
deriving DecidableEq, Repr

/-- Which of the two paths of `print_scientific` handles a given input. -/
def sciBranch (elapsed_ns : Int) : SciBranch :=
  if elapsed_ns = 0 then SciBranch.zeroLiteral else SciBranch.log10Path

/-- `print_scientific` from src/time_it.h, as the string it writes.
A zero input prints the literal `"0.0e0"` (the `value == 0` guard holds for
`(double)elapsed_ns` exactly when `elapsed_ns == 0`); a positive input takes
the `log10` path, here rendered by the exact-arithmetic idealization
`sciRenderPos` (see its caveats — the theorems below use the positive-path
string only as an opaque token).  For a negative input the C code computes
`log10` of a negative double, which is NaN, and prints an unspecified
garbage string; that unspecified rendering is the `nanRender` parameter,
over which every theorem below is universally quantified. -/
def print_scientific (nanRender : Int → String) (elapsed_ns : Int) : String :=
  if elapsed_ns = 0 then "0.0e0"
  else if 0 < elapsed_ns then sciRenderPos elapsed_ns.toNat
  else nanRender elapsed_ns

/-- The mutable globals of src/time_it.h together with the observable effects
of the modelled functions.

* `time_it_tree_file`, `time_it_csv_file`: the configurable output globals
  (`none` models a NULL `FILE *`).
* `time_it_enable_tree`, `time_it_enable_csv`: the enable flags (C `int`s
  used as booleans, modelled as `Bool`).
* `log_depth`: the thread-local nesting-depth counter of the current thread.
* `output`: ghost trace of every stream write performed so far, in order,
  as (destination, bytes) pairs — one entry per `fputs`/`fprintf` call.
* `emitTrace`: ghost trace of the calls to `log_timer_end`, in order, with
  their arguments (the emitted record and its elapsed nanoseconds).
* `closes`: ghost trace of the `fclose` calls performed so far, in order. -/
structure TimeItState where
  time_it_tree_file : Option Sink
  time_it_csv_file : Option Sink
  time_it_enable_tree : Bool
  time_it_enable_csv : Bool
  log_depth : Int
  output : List (Sink × String)
  emitTrace : List (log_timer × Int)
  closes : List Sink
deriving DecidableEq, Repr

/-- The state at program start: both file globals NULL, both formats enabled
(`LOG_OUTPUT_TREE = LOG_OUTPUT_CSV = 1` by default), depth 0, nothing yet
written, emitted or closed. -/
def initialState : TimeItState :=
  ⟨none, none, true, true, 0, [], [], []⟩

/-- One stream write (`fputs`/`fprintf`): appends the bytes to the trace. -/
def writeTo (out : Sink) (str : String) (s : TimeItState) : TimeItState :=
  { s with output := s.output ++ [(out, str)] }

/-- One `fclose` call: appends the handle to the close trace. -/
def fcloseS (h : Sink) (s : TimeItState) : TimeItState :=
  { s with closes := s.closes ++ [h] }

/-- `time_it_set_tree_file` from src/time_it.h. -/
def time_it_set_tree_file (f : Option Sink) (s : TimeItState) : TimeItState :=
  { s with time_it_tree_file := f }

/-- `time_it_set_csv_file` from src/time_it.h. -/
def time_it_set_csv_file (f : Option Sink) (s : TimeItState) : TimeItState :=
  { s with time_it_csv_file := f }

/-- The expression `time_it_tree_file ? time_it_tree_file : stderr` evaluated
by `log_timer_end` at the moment of emission. -/
def resolvedTreeSink (s : TimeItState) : Sink :=
  s.time_it_tree_file.getD Sink.stderr

/-- The expression `time_it_csv_file ? time_it_csv_file : stderr` evaluated
by `log_timer_end` at the moment of emission. -/
def resolvedCsvSink (s : TimeItState) : Sink :=
  s.time_it_csv_file.getD Sink.stderr

/-- The indentation loop of `log_timer_end`:
`for (int i = 0; i < t->depth; ++i) fputs("    ", tree_out);` —
one four-space write per iteration. -/
def writeIndent (out : Sink) : Nat → TimeItState → TimeItState
  | 0, s => s
  | k + 1, s => writeIndent out k (writeTo out "    " s)

/-- `log_timer_end` from src/time_it.h.  Resolves both sinks at entry, then,
per enabled format, performs the same sequence of stream writes as the C
code (indentation loop, header `fprintf`, `print_scientific`, newline for the
tree format; the `"%d,%s,%s,"` `fprintf`, `print_scientific`, newline for the
CSV format).  The record `t` is read only — the C code never writes through
the pointer.  The call itself is recorded in the ghost `emitTrace`. -/
def log_timer_end (nanRender : Int → String) (t : log_timer) (elapsed_ns : Int)
    (s : TimeItState) : TimeItState :=
  let tree_out := resolvedTreeSink s
  let csv_out := resolvedCsvSink s
  let s0 := { s with emitTrace := s.emitTrace ++ [(t, elapsed_ns)] }
  let s1 :=
    if s.time_it_enable_tree then
      writeTo tree_out "\n"
        (writeTo tree_out (print_scientific nanRender elapsed_ns)
          (writeTo tree_out (t.name ++ " [" ++ t.category ++ "]: ")
            (writeIndent tree_out t.depth.toNat s0)))
    else s0
  if s.time_it_enable_csv then
    writeTo csv_out "\n"
      (writeTo csv_out (print_scientific nanRender elapsed_ns)
        (writeTo csv_out (intDecStr t.depth ++ "," ++ t.name ++ ","
          ++ t.category ++ ",") s1))
  else s1

/-- The list of writes the tree branch of `log_timer_end` performs. -/
def treeCallWrites (nanRender : Int → String) (t : log_timer) (elapsed_ns : Int)
    (out : Sink) : List (Sink × String) :=
  List.replicate t.depth.toNat (out, "    ")
    ++ [(out, t.name ++ " [" ++ t.category ++ "]: "),
        (out, print_scientific nanRender elapsed_ns),
        (out, "\n")]

/-- The list of writes the CSV branch of `log_timer_end` performs. -/
def csvCallWrites (nanRender : Int → String) (t : log_timer) (elapsed_ns : Int)
    (out : Sink) : List (Sink × String) :=
  [(out, intDecStr t.depth ++ "," ++ t.name ++ "," ++ t.category ++ ","),
   (out, print_scientific nanRender elapsed_ns),
   (out, "\n")]

/-- The elapsed-time expression shared by `TimeItTimer::~TimeItTimer` and
`log_timer_cleanup`:
`(end.tv_sec - start.tv_sec) * 1000000000L + (end.tv_nsec - start.tv_nsec)`. -/
def elapsed_ns_formula (startT endT : Timespec) : Int :=
  (endT.tv_sec - startT.tv_sec) * 1000000000 + (endT.tv_nsec - startT.tv_nsec)

/-- Scope entry: the body of `TimeItTimer::TimeItTimer` and of the C
`TIME_IT` macro — store name and category, snapshot `depth = log_depth++`,
capture the start instant (`now`, the value `clock_gettime` reads). -/
def time_it_enter (name category : String) (now : Timespec) (s : TimeItState) :
    log_timer × TimeItState :=
  (⟨name, category, now, s.log_depth⟩, { s with log_depth := s.log_depth + 1 })

/-- Scope exit: the body of `TimeItTimer::~TimeItTimer` and of the C
`log_timer_cleanup` — read the end instant, compute the elapsed nanoseconds,
call `log_timer_end`, and only then decrement `log_depth`. -/
def log_timer_cleanup (nanRender : Int → String) (t : log_timer)
    (endT : Timespec) (s : TimeItState) : TimeItState :=
  let s1 := log_timer_end nanRender t (elapsed_ns_formula t.start endT) s
  { s1 with log_depth := s1.log_depth - 1 }

/-- The fields of the C++ `TimeItBasenameFiles` RAII class. -/
structure TimeItBasenameFiles where
  tree_f_ : Sink
  csv_f_ : Sink
deriving DecidableEq, Repr

/-- `TimeItBasenameFiles::TimeItBasenameFiles`: the two `fopen` results are
passed in (`none` = `fopen` failed); a failed open falls back to `stderr`;
both globals are then assigned the (non-NULL) member handles. -/
def TimeItBasenameFiles.construct (openTree openCsv : Option Sink)
    (s : TimeItState) : TimeItBasenameFiles × TimeItState :=
  let tree_f := openTree.getD Sink.stderr
  let csv_f := openCsv.getD Sink.stderr
  (⟨tree_f, csv_f⟩,
    { s with time_it_tree_file := some tree_f, time_it_csv_file := some csv_f })

/-- `TimeItBasenameFiles::~TimeItBasenameFiles`: close each member handle
that is not `stderr`, then reset both globals to `stderr`. -/
def TimeItBasenameFiles.destruct (b : TimeItBasenameFiles) (s : TimeItState) :
    TimeItState :=
  let s1 := if b.tree_f_ ≠ Sink.stderr then fcloseS b.tree_f_ s else s
  let s2 := if b.csv_f_ ≠ Sink.stderr then fcloseS b.csv_f_ s1 else s1
  { s2 with time_it_tree_file := some Sink.stderr,
            time_it_csv_file := some Sink.stderr }

/-- `time_it_file_cleanup` from the C path of src/time_it.h: given (the
address of) a local `FILE *` variable, close it when it is non-NULL and not
`stderr`.  It touches nothing else — in particular it does not write the
`time_it_tree_file` / `time_it_csv_file` globals. -/
def time_it_file_cleanup (f : Option Sink) (s : TimeItState) : TimeItState :=
  match f with
  | some h => if h ≠ Sink.stderr then fcloseS h s else s
  | none => s

/-- The C `SET_TIME_IT_OUTPUT_FILE_BASENAME` macro body: open both files
(results passed in; `none` = failure), assign each global to the opened
handle or `stderr` on failure.  The two locals keep the raw `fopen` results
for the registered cleanup. -/
def c_basename_install (openTree openCsv : Option Sink) (s : TimeItState) :
    TimeItState :=
  { s with time_it_tree_file := some (openTree.getD Sink.stderr),
           time_it_csv_file := some (openCsv.getD Sink.stderr) }

/-- Scope exit of the C `SET_TIME_IT_OUTPUT_FILE_BASENAME` macro: the
`cleanup` attribute runs `time_it_file_cleanup` on the two locals in reverse
declaration order (CSV first, then tree).  No other code runs. -/
def c_basename_release (openTree openCsv : Option Sink) (s : TimeItState) :
    TimeItState :=
  time_it_file_cleanup openTree (time_it_file_cleanup openCsv s)

/-- The three nested scopes A ⊃ B ⊃ C of claim C1, run from program start on
one thread: three entries, then the three scope exits in the LIFO order the
language guarantees for destructors / `cleanup` attributes. -/
def nestedScenario (nanRender : Int → String) (na ca nb cb nc cc : String)
    (t1 t2 t3 t4 t5 t6 : Timespec) : TimeItState :=
  let pa := time_it_enter na ca t1 initialState
  let pb := time_it_enter nb cb t2 pa.2
  let pc := time_it_enter nc cc t3 pb.2
  let s4 := log_timer_cleanup nanRender pc.1 t4 pc.2
  let s5 := log_timer_cleanup nanRender pb.1 t5 s4
  log_timer_cleanup nanRender pa.1 t6 s5

/-- Right concatenation of a list of strings (used to state what a sequence
of consecutive writes to one stream amounts to). -/
def strConcat : List String → String
  | [] => ""
  | a :: l => a ++ strConcat l

theorem writeIndent_eq (out : Sink) (k : Nat) (s : TimeItState) :
    writeIndent out k s =
      { s with output := s.output ++ List.replicate k (out, "    ") } := by
  induction k generalizing s with
  | zero => simp [writeIndent]
  | succ k ih =>
    simp [writeIndent, writeTo, ih, List.replicate_succ]

/-- Batch form of `log_timer_end`: it appends the tree writes then the CSV
writes (each group only when its format is enabled) to the write trace,
records the emission event, and changes nothing else. -/
theorem log_timer_end_eq (nanRender : Int → String) (t : log_timer)
    (elapsed_ns : Int) (s : TimeItState) :
    log_timer_end nanRender t elapsed_ns s =
      { s with
        output := s.output
          ++ (if s.time_it_enable_tree then
                treeCallWrites nanRender t elapsed_ns (resolvedTreeSink s)
              else [])
          ++ (if s.time_it_enable_csv then
                csvCallWrites nanRender t elapsed_ns (resolvedCsvSink s)
              else []),
        emitTrace := s.emitTrace ++ [(t, elapsed_ns)] } := by
  cases htree : s.time_it_enable_tree <;> cases hcsv : s.time_it_enable_csv <;>
    simp [log_timer_end, htree, hcsv, writeTo, writeIndent_eq,
      treeCallWrites, csvCallWrites]

theorem strConcat_append (l₁ l₂ : List String) :
    strConcat (l₁ ++ l₂) = strConcat l₁ ++ strConcat l₂ := by
  induction l₁ with
  | nil => simp [strConcat, String.empty_append]
  | cons a l ih => simp [strConcat, ih, String.append_assoc]

theorem treeCallWrites_sink (nanRender : Int → String) (t : log_timer)
    (elapsed_ns : Int) (out : Sink) :
    ∀ x ∈ treeCallWrites nanRender t elapsed_ns out, x.1 = out := by
  intro x hx
  simp only [treeCallWrites, List.mem_append, List.mem_replicate,
    List.mem_cons, List.not_mem_nil, or_false] at hx
  rcases hx with ⟨-, rfl⟩ | rfl | rfl | rfl <;> rfl

theorem csvCallWrites_sink (nanRender : Int → String) (t : log_timer)
    (elapsed_ns : Int) (out : Sink) :
    ∀ x ∈ csvCallWrites nanRender t elapsed_ns out, x.1 = out := by
  intro x hx
  simp only [csvCallWrites, List.mem_cons, List.not_mem_nil, or_false] at hx
  rcases hx with rfl | rfl | rfl <;> rfl

/-- C1: a single thread opening three properly nested timed scopes A ⊃ B ⊃ C
from a fresh state emits the records in the order C, then B, then A, with
recorded depths 2, 1 and 0 respectively. -/
theorem c1_nested_emission_order (nanRender : Int → String)
    (na ca nb cb nc cc : String) (t1 t2 t3 t4 t5 t6 : Timespec) :
    ((nestedScenario nanRender na ca nb cb nc cc t1 t2 t3 t4 t5 t6).emitTrace.map
        (fun p => (p.1.name, p.1.depth))) = [(nc, 2), (nb, 1), (na, 0)] := by
  simp [nestedScenario, time_it_enter, log_timer_cleanup, log_timer_end_eq,
    initialState]

/-- C2: the record's depth is assigned at construction from the depth counter
before it is incremented; on scope exit the record, carrying exactly that
snapshot, is handed to the emitter before the counter is decremented. -/
theorem c2_depth_snapshot (nanRender : Int → String) (nm cat : String)
    (now endT : Timespec) (s sExit : TimeItState) :
    (time_it_enter nm cat now s).1.depth = s.log_depth ∧
    (time_it_enter nm cat now s).2.log_depth = s.log_depth + 1 ∧
    (log_timer_cleanup nanRender (time_it_enter nm cat now s).1 endT sExit).emitTrace
      = sExit.emitTrace
        ++ [((time_it_enter nm cat now s).1, elapsed_ns_formula now endT)] ∧
    (log_timer_cleanup nanRender (time_it_enter nm cat now s).1 endT sExit).log_depth
      = sExit.log_depth - 1 := by
  refine ⟨rfl, rfl, ?_, ?_⟩ <;>
    simp [log_timer_cleanup, log_timer_end_eq, time_it_enter]

/-- C4: for instants with `end` causally after `start`, the inline elapsed
computation of the destructor/cleanup equals `end − start` in total
nanoseconds; the seconds difference is scaled before the (possibly negative)
sub-second difference is added, so a smaller `tv_nsec` in `end` borrows from
the seconds and never corrupts the result. -/
theorem c4_elapsed_borrow (startT endT : Timespec)
    (h : startT.toNanos ≤ endT.toNanos) :
    elapsed_ns_formula startT endT = endT.toNanos - startT.toNanos := by
  unfold elapsed_ns_formula Timespec.toNanos
  ring

theorem c4_elapsed_borrow_witness :
    (Timespec.mk 1 999999999).toNanos ≤ (Timespec.mk 2 5).toNanos ∧
    elapsed_ns_formula ⟨1, 999999999⟩ ⟨2, 5⟩ =
      (Timespec.mk 2 5).toNanos - (Timespec.mk 1 999999999).toNanos :=
  ⟨by decide, c4_elapsed_borrow ⟨1, 999999999⟩ ⟨2, 5⟩ (by decide)⟩

/-- C9: a zero nanosecond duration renders exactly as "0.0e0". -/
theorem c9_zero_renders (nanRender : Int → String) :
    print_scientific nanRender 0 = "0.0e0" := rfl

/-- C10: `log_timer_end` only appends writes to the resolved sinks — the
depth counter, both sink pointers, both enable flags and the close trace are
unchanged (the record itself is taken by value and never written) — and the
appended writes are the tree-format writes followed by the CSV-format
writes, each group present exactly when its format is enabled. -/
theorem c10_emitter_frame (nanRender : Int → String) (t : log_timer)
    (elapsed_ns : Int) (s : TimeItState) :
    (log_timer_end nanRender t elapsed_ns s).log_depth = s.log_depth ∧
    (log_timer_end nanRender t elapsed_ns s).time_it_tree_file = s.time_it_tree_file ∧
    (log_timer_end nanRender t elapsed_ns s).time_it_csv_file = s.time_it_csv_file ∧
    (log_timer_end nanRender t elapsed_ns s).time_it_enable_tree = s.time_it_enable_tree ∧
    (log_timer_end nanRender t elapsed_ns s).time_it_enable_csv = s.time_it_enable_csv ∧
    (log_timer_end nanRender t elapsed_ns s).closes = s.closes ∧
    (log_timer_end nanRender t elapsed_ns s).output = s.output
      ++ (if s.time_it_enable_tree then
            treeCallWrites nanRender t elapsed_ns (resolvedTreeSink s) else [])
      ++ (if s.time_it_enable_csv then
            csvCallWrites nanRender t elapsed_ns (resolvedCsvSink s) else []) := by
  simp [log_timer_end_eq]

/-- C7: sinks are resolved when the emitter runs, not when they are set —
resetting a sink to NULL yields exactly the state of a never-configured
sink, and emission on a state whose sink pointers are NULL sends every write
to standard error. -/
theorem c7_write_time_resolution (nanRender : Int → String) (t : log_timer)
    (elapsed_ns : Int) (s : TimeItState) :
    time_it_set_csv_file none (time_it_set_tree_file none s)
      = { s with time_it_tree_file := none, time_it_csv_file := none } ∧
    resolvedTreeSink { s with time_it_tree_file := none, time_it_csv_file := none }
      = Sink.stderr ∧
    resolvedCsvSink { s with time_it_tree_file := none, time_it_csv_file := none }
      = Sink.stderr ∧
    ∃ w, (log_timer_end nanRender t elapsed_ns
        { s with time_it_tree_file := none, time_it_csv_file := none }).output
        = s.output ++ w ∧ ∀ x ∈ w, x.1 = Sink.stderr := by
  refine ⟨rfl, rfl, rfl,
    (if s.time_it_enable_tree then
        treeCallWrites nanRender t elapsed_ns Sink.stderr else [])
      ++ (if s.time_it_enable_csv then
        csvCallWrites nanRender t elapsed_ns Sink.stderr else []), ?_, ?_⟩
  · rw [log_timer_end_eq]
    simp [resolvedTreeSink, resolvedCsvSink]
  · intro x hx
    rcases List.mem_append.1 hx with h | h
    · split at h
      · exact treeCallWrites_sink nanRender t elapsed_ns Sink.stderr x h
      · cases h
    · split at h
      · exact csvCallWrites_sink nanRender t elapsed_ns Sink.stderr x h
      · cases h

/-- C6 counterexample: at elapsed duration −5 the code neither clamps to
zero nor flags the value: the `value == 0` guard (the only special case in
`print_scientific`) does not match, the very same `log10` path used for a
positive duration is taken, and the rendering is the unspecified NaN garbage
of that path, not the clamped "0.0e0". -/
theorem c6_counterexample :
    sciBranch (-5) = SciBranch.log10Path ∧
    sciBranch (-5) = sciBranch 5 ∧
    print_scientific (fun _ => "nan") (-5) = "nan" ∧
    print_scientific (fun _ => "nan") (-5) ≠ "0.0e0" := by
  refine ⟨rfl, rfl, rfl, ?_⟩
  decide

/-- C6 (amended): a negative elapsed duration receives no special handling —
the zero guard never matches it, and `print_scientific` hands it to the
`log10`-of-a-negative (NaN) path, whose garbage rendering is returned
unchanged. -/
theorem c6_negative_not_clamped (nanRender : Int → String) (e : Int)
    (h : e < 0) :
    sciBranch e = SciBranch.log10Path ∧
    print_scientific nanRender e = nanRender e := by
  constructor
  · simp [sciBranch, h.ne]
  · simp [print_scientific, h.ne, lt_asymm h]

theorem c6_negative_not_clamped_witness :
    (-7 : Int) < 0 ∧ (sciBranch (-7) = SciBranch.log10Path ∧
      print_scientific (fun _ => "garbage") (-7)
        = (fun _ : Int => "garbage") (-7)) :=
  ⟨by decide, c6_negative_not_clamped (fun _ => "garbage") (-7) (by decide)⟩

/-- C5 (evaluating the C cleanup path at its failing input): with both file
opens succeeding, leaving the `SET_TIME_IT_OUTPUT_FILE_BASENAME` scope in
the C path closes both opened handles, but — unlike the C++ destructor — it
never resets `time_it_tree_file` / `time_it_csv_file`: both globals are left
pointing at the now-closed handles instead of standard error. -/
theorem c5_c_cleanup_keeps_stale_sinks :
    (c_basename_release (some (Sink.file 0)) (some (Sink.file 1))
        (c_basename_install (some (Sink.file 0)) (some (Sink.file 1))
          initialState)).closes = [Sink.file 1, Sink.file 0] ∧
    (c_basename_release (some (Sink.file 0)) (some (Sink.file 1))
        (c_basename_install (some (Sink.file 0)) (some (Sink.file 1))
          initialState)).time_it_tree_file = some (Sink.file 0) ∧
    (c_basename_release (some (Sink.file 0)) (some (Sink.file 1))
        (c_basename_install (some (Sink.file 0)) (some (Sink.file 1))
          initialState)).time_it_csv_file = some (Sink.file 1) ∧
    (c_basename_release (some (Sink.file 0)) (some (Sink.file 1))
        (c_basename_install (some (Sink.file 0)) (some (Sink.file 1))
          initialState)).time_it_tree_file ≠ some Sink.stderr := by
  decide

/-- C8: with tree output enabled, the emitter writes to the resolved tree
sink exactly `depth` repetitions of the 4-space indentation unit, then the
name, a space, the bracketed category, colon and space, then the scientific
rendering of the elapsed nanoseconds, then a newline — and nothing else goes
to the tree sink before the (possible) CSV group that follows. -/
theorem c8_tree_line_format (nanRender : Int → String) (t : log_timer)
    (elapsed_ns : Int) (s : TimeItState) (h : s.time_it_enable_tree = true) :
    ∃ rest,
      (log_timer_end nanRender t elapsed_ns s).output
        = s.output ++ treeCallWrites nanRender t elapsed_ns (resolvedTreeSink s)
          ++ rest ∧
      (∀ x ∈ treeCallWrites nanRender t elapsed_ns (resolvedTreeSink s),
        x.1 = resolvedTreeSink s) ∧
      strConcat ((treeCallWrites nanRender t elapsed_ns (resolvedTreeSink s)).map
          Prod.snd)
        = strConcat (List.replicate t.depth.toNat "    ")
          ++ t.name ++ " [" ++ t.category ++ "]: "
          ++ print_scientific nanRender elapsed_ns ++ "\n" := by
  refine ⟨(if s.time_it_enable_csv then
      csvCallWrites nanRender t elapsed_ns (resolvedCsvSink s) else []),
    ?_, treeCallWrites_sink nanRender t elapsed_ns (resolvedTreeSink s), ?_⟩
  · rw [log_timer_end_eq]
    simp [h]
  · simp only [treeCallWrites, List.map_append, List.map_replicate,
      List.map_cons, List.map_nil]
    rw [strConcat_append]
    simp [strConcat, String.append_assoc, String.append_empty]

theorem c8_tree_line_format_witness :
    initialState.time_it_enable_tree = true ∧
    ∃ rest,
      (log_timer_end (fun _ => "") ⟨"f", "work", ⟨0, 0⟩, 1⟩ 5 initialState).output
        = initialState.output
          ++ treeCallWrites (fun _ => "") ⟨"f", "work", ⟨0, 0⟩, 1⟩ 5
            (resolvedTreeSink initialState) ++ rest ∧
      (∀ x ∈ treeCallWrites (fun _ => "") ⟨"f", "work", ⟨0, 0⟩, 1⟩ 5
          (resolvedTreeSink initialState),
        x.1 = resolvedTreeSink initialState) ∧
      strConcat ((treeCallWrites (fun _ => "") ⟨"f", "work", ⟨0, 0⟩, 1⟩ 5
          (resolvedTreeSink initialState)).map Prod.snd)
        = strConcat (List.replicate (Int.toNat (1 : Int)) "    ")
          ++ "f" ++ " [" ++ "work" ++ "]: "
          ++ print_scientific (fun _ => "") 5 ++ "\n" :=
  ⟨rfl, c8_tree_line_format (fun _ => "") ⟨"f", "work", ⟨0, 0⟩, 1⟩ 5
    initialState rfl⟩

end TimeIt
